import Mathlib

/-!
Shallow embedding of the polyline geometry core of the repository:
`src/shapes/polyline.class.ts` (bounding geometry recomputation, render guard,
property-set trigger policy) and `src/mixins/default_controls.js` (PolyControl:
skew helpers, position handler, drag handler, anchor wrapper).

Machine numbers are modelled as exact rationals.  The tangent of a skew angle
(the value of `Math.tan(degreesToRadians(skewX))` in the source) is carried as
a rational field `tanSkewX` / `tanSkewY` of the shape state, so every
definition stays executable.  Collaborators that live outside `src/`
(the Point class, matrix utilities, the bounding box helper, the base object
origin / position machinery and the stroke projector) are either modelled from
the specification (doc comments say so explicitly) or abstracted as
parameters.
-/

namespace Fabric

/-- A 2D point with exact rational coordinates (models fabric.Point). -/
structure Point where
  x : ℚ
  y : ℚ
deriving DecidableEq

/-- Componentwise addition (fabric.Point.add). -/
def Point.add (p q : Point) : Point := ⟨p.x + q.x, p.y + q.y⟩

/-- Componentwise subtraction (fabric.Point.subtract). -/
def Point.subtract (p q : Point) : Point := ⟨p.x - q.x, p.y - q.y⟩

/-- Componentwise multiplication (fabric.Point.multiply). -/
def Point.multiply (p q : Point) : Point := ⟨p.x * q.x, p.y * q.y⟩

/-- Componentwise division (fabric.Point.divide). -/
def Point.divide (p q : Point) : Point := ⟨p.x / q.x, p.y / q.y⟩

/-- Scalar addition to both components (fabric.Point.scalarAdd). -/
def Point.scalarAdd (p : Point) (v : ℚ) : Point := ⟨p.x + v, p.y + v⟩

/-- A 2x3 affine matrix [a, b, c, d, e, f] in the fabric convention:
x maps to a*x + c*y + e and y maps to b*x + d*y + f. -/
structure TMat where
  a : ℚ
  b : ℚ
  c : ℚ
  d : ℚ
  e : ℚ
  f : ℚ
deriving DecidableEq

/-- Modelled from the spec: matrix composition `multiply(A, B)` (section 6),
the standard affine product in which B is applied first. -/
def multiplyTransformMatrices (A B : TMat) : TMat :=
  ⟨A.a * B.a + A.c * B.b,
    A.b * B.a + A.d * B.b,
    A.a * B.c + A.c * B.d,
    A.b * B.c + A.d * B.d,
    A.a * B.e + A.c * B.f + A.e,
    A.b * B.e + A.d * B.f + A.f⟩

/-- Modelled from the spec: transformation of a Point by a 2x3 affine matrix
(section 3, data model of Point). -/
def Point.transform (p : Point) (t : TMat) : Point :=
  ⟨t.a * p.x + t.c * p.y + t.e, t.b * p.x + t.d * p.y + t.f⟩

/-- The identity matrix, the `iMatrix` constant imported by the control file. -/
def iMatrix : TMat := ⟨1, 0, 0, 1, 0, 0⟩

/-- From the source (default_controls.js, PolyControl.applySkew): sequential
shear, the new y uses the old x, and the new x uses the new y. -/
def applySkew (point shear : Point) : Point :=
  let sy := point.y + point.x * shear.y
  ⟨point.x + sy * shear.x, sy⟩

/-- From the source (default_controls.js, PolyControl.removeSkew): the inverse
sequential shear, the new x uses the old y, and the new y uses the new x. -/
def removeSkew (point shear : Point) : Point :=
  let ux := point.x - point.y * shear.x
  ⟨ux, point.y - ux * shear.y⟩

/-- Stroke line join style (miter, round or bevel). -/
inductive LineJoin where
  | miter
  | round
  | bevel
deriving DecidableEq

/-- The state of a polyline shape: the point list, the style and transform
attributes, and the derived geometry.  `tanSkewX` and `tanSkewY` carry the
value of `Math.tan(degreesToRadians(skewX))` and the y analogue; `cosAngle`
and `sinAngle` carry the cosine and sine of the rotation angle; `originX` and
`originY` are the resolved origin offsets (the fabric convention maps the
`left`/`top` anchors to -1/2, `center` to 0, `right`/`bottom` to 1/2, and a
numeric origin fraction f to f - 1/2); `canvas` holds the viewport transform
of the canvas when the shape is attached to one. -/
structure Shape where
  points : List Point
  strokeWidth : ℚ
  strokeUniform : Bool
  strokeLineJoin : LineJoin
  scaleX : ℚ
  scaleY : ℚ
  tanSkewX : ℚ
  tanSkewY : ℚ
  flipX : Bool
  flipY : Bool
  cosAngle : ℚ
  sinAngle : ℚ
  originX : ℚ
  originY : ℚ
  left : ℚ
  top : ℚ
  width : ℚ
  height : ℚ
  pathOffset : Point
  canvas : Option TMat
deriving DecidableEq

/-- The style and transform attributes the stroke projector may read
(the spec, section 6, gives project the points, the stroke width, the line
join and a scale awareness flag; the scale and skew fields feed the latter). -/
structure StrokeStyle where
  strokeWidth : ℚ
  strokeUniform : Bool
  strokeLineJoin : LineJoin
  scaleX : ℚ
  scaleY : ℚ
  tanSkewX : ℚ
  tanSkewY : ℚ
deriving DecidableEq

/-- The style subrecord of a shape, the data handed to the stroke projector. -/
def Shape.strokeStyle (s : Shape) : StrokeStyle :=
  ⟨s.strokeWidth, s.strokeUniform, s.strokeLineJoin, s.scaleX, s.scaleY,
    s.tanSkewX, s.tanSkewY⟩

/-- The stroke projector is an external collaborator (spec section 6): it maps
the point list and the stroke style to the projected outline points.  The
theorems quantify over it. -/
abbrev Projector := List Point → StrokeStyle → List Point

/-- An axis-aligned bounding box. -/
structure BBox where
  left : ℚ
  top : ℚ
  width : ℚ
  height : ℚ
deriving DecidableEq

/-- Modelled from the spec: `makeBoundingBoxFromPoints` (the BoundingBoxEngine
of section 4.2, imported by the polyline file from util/misc): left is the
least x, top the least y, width and height the coordinate spans.  The empty
case never arises in this development (the caller guards it). -/
def makeBoundingBoxFromPoints : List Point → BBox
  | [] => ⟨0, 0, 0, 0⟩
  | p :: rest =>
    let minX := rest.foldl (fun m q => min m q.x) p.x
    let minY := rest.foldl (fun m q => min m q.y) p.y
    let maxX := rest.foldl (fun m q => max m q.x) p.x
    let maxY := rest.foldl (fun m q => max m q.y) p.y
    ⟨minX, minY, maxX - minX, maxY - minY⟩

/-- From the source (polyline.class.ts, _calcDimensions): project the stroke
on the points and measure the projected outline; an empty projection falls
back to the single point (0, 0). -/
def calcDimensions (project : Projector) (s : Shape) : BBox :=
  let pts := project s.points s.strokeStyle
  if pts = [] then makeBoundingBoxFromPoints [⟨0, 0⟩]
  else makeBoundingBoxFromPoints pts

/-- From the source (polyline.class.ts, _setPositionDimensions): the stroke
correction point, `new Point().scalarAdd(strokeWidth)` divided componentwise
by the scale when strokeUniform holds and by (1, 1) otherwise. -/
def strokeCorrection (s : Shape) : Point :=
  ((Point.mk 0 0).scalarAdd s.strokeWidth).divide
    (if s.strokeUniform then ⟨s.scaleX, s.scaleY⟩
      else (Point.mk 0 0).scalarAdd 1)

/-- Modelled from the spec: the transformed dimensions with skew forced to
zero (section 4.4 step 2 of the drag handler: the rendered size under the
current scale only; the polyline override zeroes the skew for this
computation). -/
def getTransformedDimensions (s : Shape) : Point :=
  ⟨s.width * s.scaleX, s.height * s.scaleY⟩

/-- Rotation of a vector by the shape angle. -/
def rotateVec (s : Shape) (v : Point) : Point :=
  ⟨s.cosAngle * v.x - s.sinAngle * v.y, s.sinAngle * v.x + s.cosAngle * v.y⟩

/-- Modelled from the spec: `translateToGivenOrigin` (section 4.3 step 5),
the affine relationship between two origin anchors: move the point by the
origin offset difference times the transformed dimensions, componentwise.
The origin arguments are resolved offsets (left/top resolve to -1/2). -/
def translateToGivenOrigin (s : Shape) (p : Point)
    (fromX fromY toX toY : ℚ) : Point :=
  let dim := getTransformedDimensions s
  ⟨p.x + (toX - fromX) * dim.x, p.y + (toY - fromY) * dim.y⟩

/-- From the source (polyline.class.ts, _setPositionDimensions).  The two
Option arguments model the optional `left` and `top` entries of the options
object (only their presence is ever read); `fromSVG` models the flag of the
same name. -/
def setPositionDimensions (project : Projector) (s : Shape)
    (leftArg topArg : Option ℚ) (fromSVG : Bool) : Shape :=
  let bbox := calcDimensions project s
  let corr := strokeCorrection s
  let s1 : Shape := { s with width := bbox.width - corr.x,
                             height := bbox.height - corr.y }
  let s2 : Shape :=
    if leftArg.isNone || topArg.isNone then
      let origin := translateToGivenOrigin s1
        (if fromSVG then ⟨bbox.left, bbox.top⟩ else ⟨s1.left, s1.top⟩)
        (-(1/2 : ℚ)) (-(1/2 : ℚ)) s1.originX s1.originY
      let sL : Shape := if leftArg.isNone then { s1 with left := origin.x }
        else s1
      if topArg.isNone then { sL with top := origin.y } else sL
    else s1
  let offsetX := bbox.left + bbox.width / 2
  let offsetY := bbox.top + bbox.height / 2
  let pox := offsetX - offsetY * s2.tanSkewX
  let poy := offsetY - pox * s2.tanSkewY
  { s2 with pathOffset := ⟨pox, poy⟩ }

/-- A pure translation matrix. -/
def translationMatrix (t : Point) : TMat := ⟨1, 0, 0, 1, t.x, t.y⟩

/-- The rotation matrix of the shape angle, fabric calcRotateMatrix. -/
def rotationMatrix (s : Shape) : TMat :=
  ⟨s.cosAngle, s.sinAngle, -s.sinAngle, s.cosAngle, 0, 0⟩

/-- The scale matrix with the flip signs folded in. -/
def scaleFlipMatrix (s : Shape) : TMat :=
  ⟨(if s.flipX then -1 else 1) * s.scaleX, 0, 0,
    (if s.flipY then -1 else 1) * s.scaleY, 0, 0⟩

/-- The x shear matrix. -/
def skewXMatrix (t : ℚ) : TMat := ⟨1, 0, t, 1, 0, 0⟩

/-- The y shear matrix. -/
def skewYMatrix (t : ℚ) : TMat := ⟨1, t, 0, 1, 0, 0⟩

/-- Modelled from the spec: the relative center of the shape, the stored
anchor position (left, top) moved from the shape origin anchor to the center
(the offset is rotated by the shape angle, as in the fabric origin
machinery the spec describes in sections 3 and 4.3 step 5). -/
def relativeCenter (s : Shape) : Point :=
  let dim := getTransformedDimensions s
  (Point.mk s.left s.top).subtract
    (rotateVec s ⟨s.originX * dim.x, s.originY * dim.y⟩)

/-- Modelled from the spec: the composed local-to-parent transform matrix of
the shape (section 3, AffineMatrix; section 4.4, positionHandler): translate
to the center, rotate, scale with flips, then the sequential shear of
section 4.1 (x shear applied to the result of the y shear). -/
def calcTransformMatrix (s : Shape) : TMat :=
  multiplyTransformMatrices (translationMatrix (relativeCenter s))
    (multiplyTransformMatrices (rotationMatrix s)
      (multiplyTransformMatrices (scaleFlipMatrix s)
        (multiplyTransformMatrices (skewXMatrix s.tanSkewX)
          (skewYMatrix s.tanSkewY))))

/-- Modelled from the spec: move a point from the given origin anchor to the
center anchor, honoring the rotation (the origin arguments are resolved
offsets). -/
def translateToCenterPoint (s : Shape) (p : Point) (ox oy : ℚ) : Point :=
  let dim := getTransformedDimensions s
  p.subtract (rotateVec s ⟨ox * dim.x, oy * dim.y⟩)

/-- Modelled from the spec: move the center point back to the shape origin
anchor, honoring the rotation. -/
def translateToOriginPoint (s : Shape) (c : Point) : Point :=
  let dim := getTransformedDimensions s
  c.add (rotateVec s ⟨s.originX * dim.x, s.originY * dim.y⟩)

/-- Modelled from the spec: `setPositionByOrigin(pos, fx, fy)` (section 4.4
step 5 of the anchor wrapper): solve left and top such that the point at the
origin fraction (fx, fy) lands exactly on pos, honoring the current scale,
skew, rotation and flip.  Numeric origin fractions resolve to the offset
f - 1/2. -/
def setPositionByOrigin (s : Shape) (pos : Point) (fx fy : ℚ) : Shape :=
  let c := translateToCenterPoint s pos (fx - 1/2) (fy - 1/2)
  let p := translateToOriginPoint s c
  { s with left := p.x, top := p.y }

/-- From the source (default_controls.js, PolyControl.getSize): the base size
of the polygon, its width and height. -/
def getSize (s : Shape) : Point := ⟨s.width, s.height⟩

/-- From the source (default_controls.js): the flip adjustment point
(flipX picks -1 for x, flipY picks -1 for y). -/
def flipAdjust (s : Shape) : Point :=
  ⟨if s.flipX then -1 else 1, if s.flipY then -1 else 1⟩

/-- From the source (default_controls.js, PolyControl.positionHandler): the
control position is the point at the control index minus the path offset,
transformed by the viewport transform (the identity when no canvas is
attached) composed with the shape transform matrix. -/
def positionHandler (s : Shape) (pointIndex : ℕ) : Point :=
  let px := (s.points.getD pointIndex ⟨0, 0⟩).x - s.pathOffset.x
  let py := (s.points.getD pointIndex ⟨0, 0⟩).y - s.pathOffset.y
  (Point.mk px py).transform
    (multiplyTransformMatrices (s.canvas.getD iMatrix) (calcTransformMatrix s))

/-- From the source (default_controls.js, PolyControl.polyActionHandler):
one drag step.  `mouseLocal` models `getLocalPoint(transform, center, center,
x, y)`, the pointer position in the centered local frame (an input, per the
spec section 4.4 drag handler signature).  The dragged point becomes the
unskewed image of the flip and size adjusted pointer position plus the skewed
path offset, and the geometry is recomputed. -/
def polyActionHandler (project : Projector) (s : Shape) (pointIndex : ℕ)
    (mouseLocal : Point) : Shape :=
  let polygonBaseSize := getSize s
  let size := getTransformedDimensions s
  let sizeFactor := polygonBaseSize.divide size
  let shear : Point := ⟨s.tanSkewX, s.tanSkewY⟩
  let adjustFlip := flipAdjust s
  let skewedPathOffset := applySkew s.pathOffset shear
  let finalPointPosition := removeSkew
    (((mouseLocal.multiply adjustFlip).multiply sizeFactor).add
      skewedPathOffset) shear
  setPositionDimensions project
    { s with points := s.points.set pointIndex finalPointPosition }
    none none false

/-- From the source (default_controls.js, anchorWrapper): the anchor index,
the previous vertex, wrapping from index 0 to the last index. -/
def anchorIndexOf (s : Shape) (pointIndex : ℕ) : ℕ :=
  (if pointIndex > 0 then pointIndex else s.points.length) - 1

/-- The world position of the vertex at index j: the vertex minus the path
offset, transformed by the shape transform matrix (the expression the anchor
wrapper evaluates for the anchor vertex). -/
def worldAnchor (s : Shape) (j : ℕ) : Point :=
  ((s.points.getD j ⟨0, 0⟩).subtract s.pathOffset).transform
    (calcTransformMatrix s)

/-- From the source (default_controls.js, PolyControl.anchorWrapper applied to
polyActionHandler, the actionHandler of every poly control): capture the world
position of the anchor vertex, run the inner drag handler, express the anchor
vertex in the new local frame as an origin fraction using applySkew, the new
base size and the flip adjustment, and reposition the shape so the fraction
point lands on the captured world position. -/
def anchorWrapperStep (project : Projector) (s : Shape) (pointIndex : ℕ)
    (mouseLocal : Point) : Shape :=
  let anchorIndex := anchorIndexOf s pointIndex
  let absolutePoint := worldAnchor s anchorIndex
  let s1 := polyActionHandler project s pointIndex mouseLocal
  let newPosition :=
    ((applySkew ((s1.points.getD anchorIndex ⟨0, 0⟩).subtract s1.pathOffset)
        ⟨s1.tanSkewX, s1.tanSkewY⟩).divide (getSize s1)).multiply
      (flipAdjust s1)
  setPositionByOrigin s1 absolutePoint (newPosition.x + 1/2)
    (newPosition.y + 1/2)

/-- A single property assignment, the key together with the new value.  For a
skew key the value carried is the tangent of the new angle (the trigger logic
never reads it). -/
inductive SetOp where
  | scaleX (v : ℚ)
  | scaleY (v : ℚ)
  | skewX (v : ℚ)
  | skewY (v : ℚ)
  | strokeWidth (v : ℚ)
  | strokeUniform (v : Bool)
  | strokeLineJoin (v : LineJoin)
  | flipX (v : Bool)
  | flipY (v : Bool)
  | leftPos (v : ℚ)
  | topPos (v : ℚ)
  | pointsList (v : List Point)
deriving DecidableEq

/-- The plain field update a property assignment performs (the callSuper part
of _set). -/
def applySetOp (s : Shape) (op : SetOp) : Shape :=
  match op with
  | .scaleX v => { s with scaleX := v }
  | .scaleY v => { s with scaleY := v }
  | .skewX v => { s with tanSkewX := v }
  | .skewY v => { s with tanSkewY := v }
  | .strokeWidth v => { s with strokeWidth := v }
  | .strokeUniform v => { s with strokeUniform := v }
  | .strokeLineJoin v => { s with strokeLineJoin := v }
  | .flipX v => { s with flipX := v }
  | .flipY v => { s with flipY := v }
  | .leftPos v => { s with left := v }
  | .topPos v => { s with top := v }
  | .pointsList v => { s with points := v }

/-- Whether the key of the assignment is scaleX or scaleY. -/
def SetOp.isScaleKey : SetOp → Bool
  | .scaleX _ => true
  | .scaleY _ => true
  | _ => false

/-- Whether the key of the assignment is skewX or skewY. -/
def SetOp.isSkewKey : SetOp → Bool
  | .skewX _ => true
  | .skewY _ => true
  | _ => false

/-- From the source (polyline.class.ts, _set): perform the field update, then
recompute the geometry when the key is a scale key while strokeUniform holds
and the join is not round, or else when the key is a skew key.  The boolean
of the result records whether the recompute ran. -/
def setProp (project : Projector) (s : Shape) (op : SetOp) : Shape × Bool :=
  let s1 := applySetOp s op
  if op.isScaleKey = true ∧ s1.strokeUniform = true ∧
      s1.strokeLineJoin ≠ LineJoin.round then
    (setPositionDimensions project s1 none none false, true)
  else if op.isSkewKey = true then
    (setPositionDimensions project s1 none none false, true)
  else (s1, false)

/-- A JavaScript number for the render guard model: finite, NaN, or an
infinity. -/
inductive JSNum where
  | finite (q : ℚ)
  | nan
  | posInf
  | negInf
deriving DecidableEq

/-- The JavaScript isNaN test: true only on NaN. -/
def JSNum.isNaN : JSNum → Bool
  | .nan => true
  | _ => false

/-- The JavaScript isFinite test: true only on finite numbers. -/
def JSNum.isFinite : JSNum → Bool
  | .finite _ => true
  | _ => false

/-- JavaScript subtraction on the number model: NaN absorbs, opposite
infinities subtract to an infinity, same-signed infinities to NaN. -/
def JSNum.sub : JSNum → JSNum → JSNum
  | .nan, _ => .nan
  | _, .nan => .nan
  | .finite a, .finite b => .finite (a - b)
  | .finite _, .posInf => .negInf
  | .finite _, .negInf => .posInf
  | .posInf, .posInf => .nan
  | .posInf, _ => .posInf
  | .negInf, .negInf => .nan
  | .negInf, _ => .negInf

/-- A point whose coordinates are JavaScript numbers, for the render model. -/
structure RenderPoint where
  x : JSNum
  y : JSNum
deriving DecidableEq

/-- The slice of the shape state commonRender reads: the points, the path
offset and the derived extent. -/
structure RenderShape where
  points : List RenderPoint
  pathOffset : RenderPoint
  width : ℚ
  height : ℚ
deriving DecidableEq

/-- A canvas path command issued by commonRender. -/
inductive PathCmd where
  | beginPath
  | moveTo (x y : JSNum)
  | lineTo (x y : JSNum)
deriving DecidableEq

/-- Whether the last point of the shape has a NaN y coordinate (the test
`isNaN(this.points[len - 1].y)` of the source; false on an empty list, which
the source guard short-circuits before indexing). -/
def lastYIsNaN (s : RenderShape) : Bool :=
  match s.points.getLast? with
  | none => false
  | some p => p.y.isNaN

/-- Whether the last point of the shape has a non-finite y coordinate (the
reading claim C5 gives of the guard; false on an empty list). -/
def lastYNonFinite (s : RenderShape) : Bool :=
  match s.points.getLast? with
  | none => false
  | some p => !p.y.isFinite

/-- From the source (polyline.class.ts, commonRender): skip and report false
when there is no point or the last y is NaN; otherwise begin a path, move to
the first point minus the path offset and draw a line to every point minus
the path offset (the first point included), reporting true.  The function
mutates nothing, so the shape is returned unchanged alongside the flag and
the issued commands. -/
def commonRender (s : RenderShape) : RenderShape × Bool × List PathCmd :=
  if s.points.length = 0 || lastYIsNaN s then (s, false, [])
  else
    match s.points with
    | [] => (s, false, [])
    | p0 :: _ =>
      (s, true,
        .beginPath ::
        .moveTo (p0.x.sub s.pathOffset.x) (p0.y.sub s.pathOffset.y) ::
        s.points.map (fun p =>
          .lineTo (p.x.sub s.pathOffset.x) (p.y.sub s.pathOffset.y)))

/-- The origin fraction exactly as claim C2 words it: removeSkew of the anchor
offset, divided componentwise by the new base size, multiplied componentwise
by the flip adjustment, plus one half in each component. -/
def claimedRemoveSkewFraction (t : Shape) (j : ℕ) : Point :=
  (((removeSkew ((t.points.getD j ⟨0, 0⟩).subtract t.pathOffset)
      ⟨t.tanSkewX, t.tanSkewY⟩).divide (getSize t)).multiply
    (flipAdjust t)).add ⟨1/2, 1/2⟩

/-- The origin fraction the source actually computes in anchorWrapper:
applySkew of the anchor offset, divided componentwise by the new base size,
multiplied componentwise by the flip adjustment, plus one half in each
component. -/
def codeApplySkewFraction (t : Shape) (j : ℕ) : Point :=
  (((applySkew ((t.points.getD j ⟨0, 0⟩).subtract t.pathOffset)
      ⟨t.tanSkewX, t.tanSkewY⟩).divide (getSize t)).multiply
    (flipAdjust t)).add ⟨1/2, 1/2⟩

/-- The identity stroke projector, a concrete collaborator instance for the
witnesses: the projected outline is the point list itself (a stroke of width
zero projects every point onto itself). -/
def idProject : Projector := fun pts _ => pts

/-- A concrete square shape with a recompute-consistent state: points
(0,0), (10,0), (10,10), (0,10), no stroke, no scale, no skew, no rotation,
no flip, default origins, extent 10 by 10 and path offset (5, 5). -/
def sqShape : Shape :=
  { points := [⟨0, 0⟩, ⟨10, 0⟩, ⟨10, 10⟩, ⟨0, 10⟩]
    strokeWidth := 0
    strokeUniform := false
    strokeLineJoin := .miter
    scaleX := 1
    scaleY := 1
    tanSkewX := 0
    tanSkewY := 0
    flipX := false
    flipY := false
    cosAngle := 1
    sinAngle := 0
    originX := -(1/2)
    originY := -(1/2)
    left := 0
    top := 0
    width := 0
    height := 0
    pathOffset := ⟨0, 0⟩
    canvas := none }

/-- The square shape after a recompute with the identity projector: extent
10 by 10 and path offset (5, 5). -/
def sqReady : Shape := setPositionDimensions idProject sqShape none none false

/-- A degenerate shape for the claim C1 counterexample: the stroke correction
(stroke width 2, no uniform stroke) swallows the whole raw extent of the
points (0,0), (2,0), (2,2), so the recomputed width and height are zero while
the points still spread; the state shown is recompute-consistent. -/
def degShape : Shape :=
  { sqShape with
    points := [⟨0, 0⟩, ⟨2, 0⟩, ⟨2, 2⟩]
    strokeWidth := 2
    width := 0
    height := 0
    pathOffset := ⟨1, 1⟩ }

/-- A skewed shape for the claim C2 counterexample: x skew with tangent 1,
points (0,0), (4,0), (4,4), recompute-consistent extent 4 by 4 and path
offset (0, 2). -/
def skewShape : Shape :=
  { sqShape with
    points := [⟨0, 0⟩, ⟨4, 0⟩, ⟨4, 4⟩]
    tanSkewX := 1
    width := 4
    height := 4
    pathOffset := ⟨0, 2⟩ }

/-- A render shape whose single point has an infinite y coordinate, for the
claim C5 counterexample: the y is non-finite yet not NaN. -/
def infShape : RenderShape :=
  { points := [⟨.finite 0, .posInf⟩]
    pathOffset := ⟨.finite 0, .finite 0⟩
    width := 0
    height := 0 }

/-- A render shape with one ordinary finite point, for the claim C5
witness. -/
def finShape : RenderShape :=
  { points := [⟨.finite 3, .finite 4⟩]
    pathOffset := ⟨.finite 1, .finite 1⟩
    width := 0
    height := 0 }

/-- A shape with a round join and a uniform stroke, for the claim C3
witness. -/
def roundShape : Shape :=
  { sqShape with
    strokeUniform := true
    strokeLineJoin := .round
    strokeWidth := 2
    width := 8
    height := 8
    pathOffset := ⟨5, 5⟩ }

/-- The path commands a successful commonRender issues: begin a path, move to
the first point minus the path offset, then a line to every point minus the
path offset. -/
def renderCommands (s : RenderShape) : List PathCmd :=
  match s.points with
  | [] => []
  | p0 :: _ =>
    .beginPath ::
    .moveTo (p0.x.sub s.pathOffset.x) (p0.y.sub s.pathOffset.y) ::
    s.points.map (fun p =>
      .lineTo (p.x.sub s.pathOffset.x) (p.y.sub s.pathOffset.y))

theorem spd_width (project : Projector) (s : Shape) (l t : Option ℚ)
    (fs : Bool) : (setPositionDimensions project s l t fs).width =
      (calcDimensions project s).width - (strokeCorrection s).x := by
  unfold setPositionDimensions
  dsimp only
  split <;> first
    | rfl
    | (split <;> split <;> rfl)

theorem spd_height (project : Projector) (s : Shape) (l t : Option ℚ)
    (fs : Bool) : (setPositionDimensions project s l t fs).height =
      (calcDimensions project s).height - (strokeCorrection s).y := by
  unfold setPositionDimensions
  dsimp only
  split <;> first
    | rfl
    | (split <;> split <;> rfl)

theorem spd_points (project : Projector) (s : Shape) (l t : Option ℚ)
    (fs : Bool) : (setPositionDimensions project s l t fs).points =
      s.points := by
  unfold setPositionDimensions
  dsimp only
  split <;> first
    | rfl
    | (split <;> split <;> rfl)

theorem spd_strokeStyle (project : Projector) (s : Shape) (l t : Option ℚ)
    (fs : Bool) : (setPositionDimensions project s l t fs).strokeStyle =
      s.strokeStyle := by
  unfold setPositionDimensions Shape.strokeStyle
  dsimp only
  split <;> first
    | rfl
    | (split <;> split <;> rfl)

theorem spd_tanSkewX (project : Projector) (s : Shape) (l t : Option ℚ)
    (fs : Bool) : (setPositionDimensions project s l t fs).tanSkewX =
      s.tanSkewX := by
  unfold setPositionDimensions
  dsimp only
  split <;> first
    | rfl
    | (split <;> split <;> rfl)

theorem spd_tanSkewY (project : Projector) (s : Shape) (l t : Option ℚ)
    (fs : Bool) : (setPositionDimensions project s l t fs).tanSkewY =
      s.tanSkewY := by
  unfold setPositionDimensions
  dsimp only
  split <;> first
    | rfl
    | (split <;> split <;> rfl)

theorem spd_pathOffset (project : Projector) (s : Shape) (l t : Option ℚ)
    (fs : Bool) : (setPositionDimensions project s l t fs).pathOffset =
      ⟨(calcDimensions project s).left + (calcDimensions project s).width / 2 -
          ((calcDimensions project s).top +
            (calcDimensions project s).height / 2) * s.tanSkewX,
        (calcDimensions project s).top + (calcDimensions project s).height / 2 -
          ((calcDimensions project s).left +
              (calcDimensions project s).width / 2 -
            ((calcDimensions project s).top +
              (calcDimensions project s).height / 2) * s.tanSkewX) *
            s.tanSkewY⟩ := by
  unfold setPositionDimensions
  dsimp only
  split <;> first
    | rfl
    | (split <;> split <;> rfl)

theorem strokeCorrection_x (s : Shape) : (strokeCorrection s).x =
    s.strokeWidth / (if s.strokeUniform then s.scaleX else 1) := by
  unfold strokeCorrection Point.divide Point.scalarAdd
  split <;> simp

theorem strokeCorrection_y (s : Shape) : (strokeCorrection s).y =
    s.strokeWidth / (if s.strokeUniform then s.scaleY else 1) := by
  unfold strokeCorrection Point.divide Point.scalarAdd
  split <;> simp

theorem calcDimensions_congr (project : Projector) (s1 s2 : Shape)
    (hp : s1.points = s2.points) (hs : s1.strokeStyle = s2.strokeStyle) :
    calcDimensions project s1 = calcDimensions project s2 := by
  unfold calcDimensions
  rw [hp, hs]

theorem strokeCorrection_congr (s1 s2 : Shape)
    (hs : s1.strokeStyle = s2.strokeStyle) :
    strokeCorrection s1 = strokeCorrection s2 := by
  have h1 : s1.strokeWidth = s2.strokeWidth :=
    congrArg StrokeStyle.strokeWidth hs
  have h2 : s1.strokeUniform = s2.strokeUniform :=
    congrArg StrokeStyle.strokeUniform hs
  have h3 : s1.scaleX = s2.scaleX := congrArg StrokeStyle.scaleX hs
  have h4 : s1.scaleY = s2.scaleY := congrArg StrokeStyle.scaleY hs
  unfold strokeCorrection
  rw [h1, h2, h3, h4]

/-- C4: for every point and every shear vector, removeSkew inverts applySkew
exactly, with no singular shear value excluded: the two formulas are
triangular substitutions, not a general 2x2 inverse. -/
theorem claim4_removeSkew_inverts_applySkew (p s : Point) :
    removeSkew (applySkew p s) s = p := by
  cases p with
  | mk px py =>
    cases s with
    | mk sx sy =>
      simp only [applySkew, removeSkew, Point.mk.injEq]
      constructor <;> ring

/-- C6: after a recompute the width is the projected bounding box width minus
strokeWidth divided by scaleX when strokeUniform holds (by 1 otherwise), the
height the analogue with scaleY; nothing is clamped, so the width or height
goes negative whenever the stroke correction exceeds the raw extent. -/
theorem claim6_stroke_corrected_extent (project : Projector) (s : Shape)
    (l t : Option ℚ) (fs : Bool) :
    ((setPositionDimensions project s l t fs).width =
        (calcDimensions project s).width -
          s.strokeWidth / (if s.strokeUniform then s.scaleX else 1)) ∧
    ((setPositionDimensions project s l t fs).height =
        (calcDimensions project s).height -
          s.strokeWidth / (if s.strokeUniform then s.scaleY else 1)) ∧
    (s.strokeWidth / (if s.strokeUniform then s.scaleX else 1) >
        (calcDimensions project s).width →
      (setPositionDimensions project s l t fs).width < 0) ∧
    (s.strokeWidth / (if s.strokeUniform then s.scaleY else 1) >
        (calcDimensions project s).height →
      (setPositionDimensions project s l t fs).height < 0) := by
  rw [spd_width, spd_height, strokeCorrection_x, strokeCorrection_y]
  refine ⟨rfl, rfl, fun h => by linarith, fun h => by linarith⟩

/-- C6 witness: a stroke width of 20 on the 10 by 10 square with no uniform
stroke has a correction larger than the raw extent, and the recomputed width
is negative. -/
theorem claim6_witness :
    ({ sqReady with strokeWidth := 20 } : Shape).strokeWidth /
        (if ({ sqReady with strokeWidth := 20 } : Shape).strokeUniform then
          ({ sqReady with strokeWidth := 20 } : Shape).scaleX else 1) >
      (calcDimensions idProject { sqReady with strokeWidth := 20 }).width ∧
    (setPositionDimensions idProject { sqReady with strokeWidth := 20 }
      none none false).width < 0 :=
  ⟨of_decide_eq_true (by with_unfolding_all rfl),
    (claim6_stroke_corrected_extent idProject
      { sqReady with strokeWidth := 20 } none none false).2.2.1
      (of_decide_eq_true (by with_unfolding_all rfl))⟩

/-- C7: after a recompute the path offset satisfies the sequential unshear
rule applied to the projected bounding box center: with offsetX the box
center x and offsetY the box center y, pathOffset.x is offsetX minus offsetY
times the x skew tangent, and pathOffset.y is offsetY minus the just computed
pathOffset.x times the y skew tangent. -/
theorem claim7_path_offset_rule (project : Projector) (s : Shape)
    (l t : Option ℚ) (fs : Bool) :
    ((setPositionDimensions project s l t fs).pathOffset.x =
        ((calcDimensions project s).left +
            (calcDimensions project s).width / 2) -
          ((calcDimensions project s).top +
              (calcDimensions project s).height / 2) * s.tanSkewX) ∧
    ((setPositionDimensions project s l t fs).pathOffset.y =
        ((calcDimensions project s).top +
            (calcDimensions project s).height / 2) -
          (setPositionDimensions project s l t fs).pathOffset.x *
            s.tanSkewY) := by
  rw [spd_pathOffset]
  exact ⟨rfl, rfl⟩

/-- C8: a recompute is idempotent on the derived geometry: a second
recompute with no intervening mutation reproduces the width, the height and
the path offset of the first. -/
theorem claim8_recompute_idempotent (project : Projector) (s : Shape) :
    (setPositionDimensions project
        (setPositionDimensions project s none none false)
        none none false).width =
      (setPositionDimensions project s none none false).width ∧
    (setPositionDimensions project
        (setPositionDimensions project s none none false)
        none none false).height =
      (setPositionDimensions project s none none false).height ∧
    (setPositionDimensions project
        (setPositionDimensions project s none none false)
        none none false).pathOffset =
      (setPositionDimensions project s none none false).pathOffset := by
  have hbb : calcDimensions project
      (setPositionDimensions project s none none false) =
      calcDimensions project s :=
    calcDimensions_congr project _ s (spd_points project s none none false)
      (spd_strokeStyle project s none none false)
  have hsc : strokeCorrection
      (setPositionDimensions project s none none false) =
      strokeCorrection s :=
    strokeCorrection_congr _ s (spd_strokeStyle project s none none false)
  refine ⟨?_, ?_, ?_⟩
  · rw [spd_width, spd_width, hbb, hsc]
  · rw [spd_height, spd_height, hbb, hsc]
  · rw [spd_pathOffset, spd_pathOffset, hbb, spd_tanSkewX, spd_tanSkewY]

/-- C9: when the point sequence fed to the bounding box computation is empty
the computation does not fail: it returns left 0, top 0, width 0, height 0,
the same bounding box as for the single point (0, 0). -/
theorem claim9_empty_projection_fallback (project : Projector) (s : Shape)
    (h : project s.points s.strokeStyle = []) :
    calcDimensions project s = ⟨0, 0, 0, 0⟩ ∧
    calcDimensions project s = makeBoundingBoxFromPoints [⟨0, 0⟩] := by
  unfold calcDimensions
  rw [h]
  exact ⟨by norm_num [makeBoundingBoxFromPoints], rfl⟩

/-- C9 witness: the empty projector on the square shape. -/
theorem claim9_witness :
    (fun _ _ => ([] : List Point)) sqReady.points sqReady.strokeStyle = [] ∧
    calcDimensions (fun _ _ => ([] : List Point)) sqReady = ⟨0, 0, 0, 0⟩ :=
  ⟨rfl, (claim9_empty_projection_fallback
    (fun _ _ => ([] : List Point)) sqReady rfl).1⟩

theorem iMatrix_multiply (M : TMat) :
    multiplyTransformMatrices iMatrix M = M := by
  cases M
  simp [multiplyTransformMatrices, iMatrix]

/-- C10: for a shape with no canvas attached, positionHandler returns the
point at the control index minus the path offset transformed by the shape
transform matrix alone: the viewport matrix silently defaults to the
identity. -/
theorem claim10_no_canvas_identity_viewport (s : Shape) (i : ℕ)
    (h : s.canvas = none) :
    positionHandler s i =
      ((s.points.getD i ⟨0, 0⟩).subtract s.pathOffset).transform
        (calcTransformMatrix s) := by
  unfold positionHandler
  rw [h]
  show ((Point.mk _ _).transform
    (multiplyTransformMatrices iMatrix (calcTransformMatrix s))) = _
  rw [iMatrix_multiply]
  rfl

/-- C10 witness: the square shape has no canvas, and the handler value at
index 2 agrees with the bare transform of the offset vertex. -/
theorem claim10_witness :
    sqReady.canvas = none ∧
    positionHandler sqReady 2 =
      ((sqReady.points.getD 2 ⟨0, 0⟩).subtract sqReady.pathOffset).transform
        (calcTransformMatrix sqReady) :=
  ⟨rfl, claim10_no_canvas_identity_viewport sqReady 2 rfl⟩

/-- C3: a single property assignment through the set routine triggers the
geometry recompute exactly when the key is skewX or skewY, unconditionally,
or the key is scaleX or scaleY while strokeUniform holds and the join is not
round; in particular with a round join and a uniform stroke a scaleX
assignment does not trigger a recompute. -/
theorem claim3_set_trigger_policy :
    (∀ (project : Projector) (s : Shape) (op : SetOp),
      (setProp project s op).2 = true ↔
        (op.isSkewKey = true ∨
          (op.isScaleKey = true ∧ s.strokeUniform = true ∧
            s.strokeLineJoin ≠ LineJoin.round))) ∧
    (∀ (project : Projector) (s : Shape) (v : ℚ),
      s.strokeLineJoin = LineJoin.round → s.strokeUniform = true →
      (setProp project s (SetOp.scaleX v)).2 = false) := by
  constructor
  · intro project s op
    cases op <;>
      simp [setProp, applySetOp, SetOp.isScaleKey, SetOp.isSkewKey] <;>
      split_ifs <;> simp_all
  · intro project s v h1 h2
    simp [setProp, applySetOp, SetOp.isScaleKey, SetOp.isSkewKey, h1, h2]

/-- C3 witness: on the round-join uniform-stroke shape a scaleX assignment
reports no recompute. -/
theorem claim3_witness :
    roundShape.strokeLineJoin = LineJoin.round ∧
    roundShape.strokeUniform = true ∧
    (setProp idProject roundShape (SetOp.scaleX 2)).2 = false :=
  ⟨rfl, rfl, claim3_set_trigger_policy.2 idProject roundShape 2 rfl rfl⟩

/-- C5 counterexample: on a single point whose y coordinate is positive
infinity the guard does not fire (the source tests isNaN, and isNaN of an
infinity is false), so commonRender draws and returns true although the last
y coordinate is non-finite; the claimed guard condition is therefore not
equivalent to the returned flag. -/
theorem claim5_counterexample :
    ¬ (((commonRender infShape).2.1 = false) ↔
      (infShape.points = [] ∨ lastYNonFinite infShape = true)) := by
  decide

/-- C5 amended: commonRender draws no path and returns false exactly when
the points list is empty or the last point has a NaN y coordinate (a
non-finite infinity does not trigger the guard); for every other input it
issues the path commands and returns true, and the shape state is unchanged
in both branches. -/
theorem claim5_render_guard (s : RenderShape) :
    ((commonRender s).2.1 = false ↔
      (s.points = [] ∨ lastYIsNaN s = true)) ∧
    ((commonRender s).1 = s) ∧
    ((commonRender s).2.1 = false → (commonRender s).2.2 = []) ∧
    ((commonRender s).2.1 = true → (commonRender s).2.2 = renderCommands s) := by
  rcases s with ⟨pts, off, w, h⟩
  cases pts with
  | nil => simp [commonRender, lastYIsNaN]
  | cons p ps =>
    by_cases hn : lastYIsNaN ⟨p :: ps, off, w, h⟩ = true
    · simp [commonRender, hn, renderCommands]
    · simp only [Bool.not_eq_true] at hn
      simp [commonRender, hn, renderCommands]

/-- C5 witness: on the single finite point the render succeeds and issues
exactly the path commands. -/
theorem claim5_witness :
    (commonRender finShape).2.1 = true ∧
    (commonRender finShape).2.2 = renderCommands finShape :=
  ⟨rfl, (claim5_render_guard finShape).2.2.2 rfl⟩

set_option maxHeartbeats 2000000 in
theorem reposition_world (t : Shape) (A u : Point)
    (hw : t.width ≠ 0) (hh : t.height ≠ 0) :
    u.transform (calcTransformMatrix (setPositionByOrigin t A
      ((((applySkew u ⟨t.tanSkewX, t.tanSkewY⟩).divide (getSize t)).multiply
        (flipAdjust t)).x + 1/2)
      ((((applySkew u ⟨t.tanSkewX, t.tanSkewY⟩).divide (getSize t)).multiply
        (flipAdjust t)).y + 1/2))) = A := by
  rcases t with ⟨pts, sw, su, slj, sx, sy, tkx, tky, fx, fy, c, sn, ox, oy,
    l, tp, w, h, po, cv⟩
  rcases A with ⟨Ax, Ay⟩
  rcases u with ⟨ux, uy⟩
  simp only [ne_eq] at hw hh
  simp only [calcTransformMatrix, multiplyTransformMatrices,
    translationMatrix, rotationMatrix, scaleFlipMatrix, skewXMatrix,
    skewYMatrix, relativeCenter, rotateVec, getTransformedDimensions,
    setPositionByOrigin, translateToCenterPoint, translateToOriginPoint,
    Point.transform, Point.subtract, Point.add, Point.multiply, Point.divide,
    applySkew, getSize, flipAdjust, Point.mk.injEq]
  cases fx <;> cases fy <;>
    simp only [Bool.false_eq_true, if_true, if_false, ite_true, ite_false] <;>
    refine ⟨?_, ?_⟩ <;> field_simp <;> ring

/-- C1 counterexample: on the degenerate shape (a nonzero stroke correction
swallows the whole raw extent, so the recomputed width and height are zero
while the anchor vertex keeps a nonzero local offset) one drag step through
anchorWrapper moves the anchor vertex in world space, from (-1,-1) to
(-2,-2) in exact arithmetic; the JavaScript original divides by zero at the
same step and produces non-finite coordinates, equally violating the claimed
invariance. -/
theorem claim1_counterexample :
    degShape.points ≠ [] ∧
    worldAnchor (anchorWrapperStep idProject degShape 1 ⟨0, 0⟩)
        (anchorIndexOf degShape 1) ≠
      worldAnchor degShape (anchorIndexOf degShape 1) :=
  ⟨of_decide_eq_true (by with_unfolding_all rfl),
    of_decide_eq_true (by with_unfolding_all rfl)⟩

/-- C1 amended: for every drag step processed through anchorWrapper on a
shape with a non-empty points list and a valid control index, provided the
recomputed width and height after the inner drag handler are nonzero, the
world position of the anchor vertex (computed through the shape transform
matrix) is the same before the inner handler mutates the dragged point as
after the shape is repositioned by setPositionByOrigin. -/
theorem claim1_anchor_world_invariant (project : Projector) (s : Shape)
    (i : ℕ) (m : Point) (hne : s.points ≠ []) (hi : i < s.points.length)
    (hw : (polyActionHandler project s i m).width ≠ 0)
    (hh : (polyActionHandler project s i m).height ≠ 0) :
    worldAnchor (anchorWrapperStep project s i m) (anchorIndexOf s i) =
      worldAnchor s (anchorIndexOf s i) :=
  reposition_world (polyActionHandler project s i m)
    (worldAnchor s (anchorIndexOf s i))
    (((polyActionHandler project s i m).points.getD (anchorIndexOf s i)
        ⟨0, 0⟩).subtract (polyActionHandler project s i m).pathOffset) hw hh

/-- C1 witness: the spec scenario, dragging vertex index 2 of the 10 by 10
square (anchor index 1) with a pointer at local position (10, 5); the anchor
vertex stays at world position (10, 0). -/
theorem claim1_witness :
    sqReady.points ≠ [] ∧ 2 < sqReady.points.length ∧
    (polyActionHandler idProject sqReady 2 ⟨10, 5⟩).width ≠ 0 ∧
    (polyActionHandler idProject sqReady 2 ⟨10, 5⟩).height ≠ 0 ∧
    worldAnchor (anchorWrapperStep idProject sqReady 2 ⟨10, 5⟩)
        (anchorIndexOf sqReady 2) =
      worldAnchor sqReady (anchorIndexOf sqReady 2) :=
  ⟨of_decide_eq_true (by with_unfolding_all rfl),
    of_decide_eq_true (by with_unfolding_all rfl),
    of_decide_eq_true (by with_unfolding_all rfl),
    of_decide_eq_true (by with_unfolding_all rfl),
    claim1_anchor_world_invariant idProject sqReady 2 ⟨10, 5⟩
      (of_decide_eq_true (by with_unfolding_all rfl))
      (of_decide_eq_true (by with_unfolding_all rfl))
      (of_decide_eq_true (by with_unfolding_all rfl))
      (of_decide_eq_true (by with_unfolding_all rfl))⟩

/-- C2 counterexample: on the skewed shape (x skew tangent 1) the state the
anchor wrapper actually produces differs from the state a reposition by the
claimed removeSkew fraction would produce: the wrapper leaves left at 0, the
claimed fraction would move left to -4. -/
theorem claim2_counterexample :
    anchorWrapperStep idProject skewShape 1 ⟨0, 0⟩ ≠
      setPositionByOrigin (polyActionHandler idProject skewShape 1 ⟨0, 0⟩)
        (worldAnchor skewShape (anchorIndexOf skewShape 1))
        ((claimedRemoveSkewFraction
          (polyActionHandler idProject skewShape 1 ⟨0, 0⟩)
          (anchorIndexOf skewShape 1)).x)
        ((claimedRemoveSkewFraction
          (polyActionHandler idProject skewShape 1 ⟨0, 0⟩)
          (anchorIndexOf skewShape 1)).y) :=
  of_decide_eq_true (by with_unfolding_all rfl)

/-- C2 amended: after the inner drag handler has mutated the dragged point
and the recompute has run, the origin fraction used to reposition the shape
is applySkew (not removeSkew) of the anchor offset in the new frame, divided
componentwise by the new width and height, multiplied componentwise by the
flip adjustment, plus one half in each component. -/
theorem claim2_reposition_fraction (project : Projector) (s : Shape) (i : ℕ)
    (m : Point) :
    anchorWrapperStep project s i m =
      setPositionByOrigin (polyActionHandler project s i m)
        (worldAnchor s (anchorIndexOf s i))
        ((codeApplySkewFraction (polyActionHandler project s i m)
          (anchorIndexOf s i)).x)
        ((codeApplySkewFraction (polyActionHandler project s i m)
          (anchorIndexOf s i)).y) := rfl

end Fabric
